import Mathlib

/-!
Verification of the Mycvgame world-generation and physics core.

This file gives a shallow embedding, over exact rational coordinates, of the
placement solver and ground query (src/js/utils.js), the player collision
resolver and boundary clamp (src/js/player.js), the NPC collision loop,
boundary clamp and stuck detection (src/js/npc.js, current revision), the
universe generator's phase ordering and portal construction
(src/unnamed/part_000, the current revision of universeManager.js), and the
clue-collection scoring (src/js/main.js).  JS `Math.random()` draws and the
transcendental evaluations (`Math.cos`, `Math.sin`, `Math.sqrt`, `Math.atan2`)
are passed in as explicit rational parameters so that every definition stays
executable and exact.
-/

/-- A 3-component vector (THREE.Vector3) with exact rational coordinates. -/
structure Vec3 where
  x : ℚ
  y : ℚ
  z : ℚ
deriving DecidableEq, Repr

/-- Componentwise vector addition (THREE.Vector3.add). -/
def Vec3.add (a b : Vec3) : Vec3 := ⟨a.x + b.x, a.y + b.y, a.z + b.z⟩

/-- Componentwise vector subtraction (THREE.Vector3.sub). -/
def Vec3.sub (a b : Vec3) : Vec3 := ⟨a.x - b.x, a.y - b.y, a.z - b.z⟩

/-- Scalar multiple (THREE.Vector3.multiplyScalar). -/
def Vec3.smul (q : ℚ) (a : Vec3) : Vec3 := ⟨q * a.x, q * a.y, q * a.z⟩

/-- Squared length (THREE.Vector3.lengthSq). -/
def Vec3.lengthSq (a : Vec3) : ℚ := a.x * a.x + a.y * a.y + a.z * a.z

/-- Squared distance between two points (THREE.Vector3.distanceToSquared). -/
def Vec3.distanceToSquared (a b : Vec3) : ℚ := (a.sub b).lengthSq

/-- An axis-aligned bounding box (THREE.Box3). -/
structure Box3 where
  min : Vec3
  max : Vec3
deriving DecidableEq, Repr

/-- Closed-interval AABB overlap test (THREE.Box3.intersectsBox: the boxes are
disjoint exactly when some axis interval of one lies strictly beyond the
other's). -/
def Box3.intersects (a b : Box3) : Bool :=
  decide (a.min.x ≤ b.max.x ∧ b.min.x ≤ a.max.x ∧
          a.min.y ≤ b.max.y ∧ b.min.y ≤ a.max.y ∧
          a.min.z ≤ b.max.z ∧ b.min.z ≤ a.max.z)

/-- Translate a box by a vector (THREE.Box3.translate). -/
def Box3.translate (b : Box3) (v : Vec3) : Box3 := ⟨b.min.add v, b.max.add v⟩

/-- Size of a box (THREE.Box3.getSize). -/
def Box3.size (b : Box3) : Vec3 := b.max.sub b.min

/-- Center of a box (THREE.Box3.getCenter). -/
def Box3.center (b : Box3) : Vec3 := Vec3.smul (1/2) (b.min.add b.max)

/-- Grow a box by a vector on both sides (THREE.Box3.expandByVector). -/
def Box3.expandByVector (b : Box3) (v : Vec3) : Box3 := ⟨b.min.sub v, b.max.add v⟩

/-- A placed world object: its identity and the `userData` tags and bounding
box that the collision and placement code reads (`isGround`, `isNPC`,
`isPlayer`, `isNonCollidable`, `isScenery`, `isPortal`, `isHazard`,
`userData.boundingBox`).  `id` models JS object identity (`obj === self`). -/
structure WorldObject where
  id : Nat
  isGround : Bool
  isNPC : Bool
  isPlayer : Bool
  isNonCollidable : Bool
  isScenery : Bool
  isPortal : Bool
  isHazard : Bool
  boundingBox : Option Box3
deriving DecidableEq, Repr

/-- constants.js: PLAYER_HEIGHT = 1.8. -/
def PLAYER_HEIGHT : ℚ := 9/5

/-- constants.js: PLAYER_RADIUS = 0.4. -/
def PLAYER_RADIUS : ℚ := 2/5

/-- constants.js: UNIVERSE_RADIUS = 35 (current revision). -/
def UNIVERSE_RADIUS : ℚ := 35

/-- constants.js: MAIN_UNIVERSE_RADIUS = 15. -/
def MAIN_UNIVERSE_RADIUS : ℚ := 15

/-- constants.js: MAX_PLACEMENT_ATTEMPTS = 15. -/
def MAX_PLACEMENT_ATTEMPTS : Nat := 15

/-- constants.js: PLACEMENT_CLEARANCE_RADIUS_MULTIPLIER = 1.2. -/
def PLACEMENT_CLEARANCE_RADIUS_MULTIPLIER : ℚ := 6/5

/-- One random placement attempt of utils.js placeObjectRandomly: the sampled
position `(cos angle * radius, yPosition, sin angle * radius)` together with
the bounding box recomputed by `Box3.setFromObject` at that transform (the
geometry walk of setFromObject is THREE library code, so the resulting box is
carried as data). -/
structure Candidate where
  pos : Vec3
  bbox : Box3
deriving DecidableEq, Repr

/-- utils.js placeObjectRandomly lines 42-47: the clearance box is a copy of
the candidate bounding box, and when the clearance multiplier is not 1 it is
expanded on each side by `size * (clearanceMultiplier - 1)`. -/
def placementCheckBounds (bbox : Box3) (clearanceMultiplier : ℚ) : Box3 :=
  if clearanceMultiplier = 1 then bbox
  else Box3.expandByVector bbox (Vec3.smul (clearanceMultiplier - 1) (Box3.size bbox))

/-- utils.js isPlacementAreaClearBox (lines 72-85): every object of the check
list is either skipped (itself, ground-tagged, or without a bounding box) or
must not intersect the clearance box. -/
def isPlacementAreaClearBox (objectCheckBounds : Box3) (checkObjects : List WorldObject)
    (selfId : Nat) : Bool :=
  checkObjects.all fun obj =>
    if obj.id == selfId || obj.isGround then true
    else
      match obj.boundingBox with
      | none => true
      | some b => ! objectCheckBounds.intersects b

/-- The retry loop of utils.js placeObjectRandomly (lines 26-56): attempt `i`
draws candidate `cands i`; the first candidate whose clearance box is clear is
accepted, otherwise the loop continues until the fuel (the remaining attempt
budget) runs out, leaving the object at the last sampled candidate. -/
def placeLoop (cands : Nat → Candidate) (world : List WorldObject) (selfId : Nat)
    (clearanceMultiplier : ℚ) : Nat → Nat → Candidate → Bool × Candidate
  | 0, _, last => (false, last)
  | fuel + 1, i, _ =>
    let c := cands i
    if isPlacementAreaClearBox (placementCheckBounds c.bbox clearanceMultiplier) world selfId
    then (true, c)
    else placeLoop cands world selfId clearanceMultiplier fuel (i + 1) c

/-- utils.js placeObjectRandomly (lines 12-69): run the retry loop with the
fixed budget MAX_PLACEMENT_ATTEMPTS, returning `positionFound` and the
object's final transform (the accepted candidate, or the last sampled one on
failure).  `init` is the object's transform before the call (never returned
while the budget is positive). -/
def placeObjectRandomly (cands : Nat → Candidate) (world : List WorldObject) (selfId : Nat)
    (clearanceMultiplier : ℚ) (init : Candidate) : Bool × Candidate :=
  placeLoop cands world selfId clearanceMultiplier MAX_PLACEMENT_ATTEMPTS 0 init

/-- A ground-tagged object as seen by the downward ray query: its tag, the
height of its flat top surface, and the horizontal footprint of that surface. -/
structure GroundObj where
  isGround : Bool
  top : ℚ
  minX : ℚ
  maxX : ℚ
  minZ : ℚ
  maxZ : ℚ
deriving DecidableEq, Repr

/-- Downward ray versus the flat top surface of a ground object (models
THREE.Raycaster.intersectObjects for the flat-topped ground meshes the game
builds): the ray from `origin` pointing down hits the surface when the origin
is horizontally over the footprint and the surface lies at distance between 0
and `far` below the origin; the hit point's y is the surface height. -/
def rayHitDown (origin : Vec3) (far : ℚ) (g : GroundObj) : Option ℚ :=
  if g.minX ≤ origin.x ∧ origin.x ≤ g.maxX ∧ g.minZ ≤ origin.z ∧ origin.z ≤ g.maxZ ∧
      g.top ≤ origin.y ∧ origin.y - g.top ≤ far
  then some g.top else none

/-- Greatest element of a rational list, `none` on the empty list.  The
downward ray's nearest hit (`intersects[0]`, sorted by distance) is the
greatest surface height at or below the ray origin. -/
def listMaxQ : List ℚ → Option ℚ
  | [] => none
  | h :: t =>
    match listMaxQ t with
    | none => some h
    | some m => some (max h m)

/-- utils.js findGroundHeight (lines 111-128): offset the ray origin 5 units
up, limit the ray to 20 units, keep only isGround objects (returning null when
there are none), and return the nearest hit's y, or null when nothing is hit. -/
def findGroundHeight (position : Vec3) (worldObjects : List GroundObj) : Option ℚ :=
  if (worldObjects.filter fun o => o.isGround).isEmpty then none
  else listMaxQ ((worldObjects.filter fun o => o.isGround).filterMap
    (rayHitDown ⟨position.x, position.y + 5, position.z⟩ 20))

/-- The placement phases of generateUniverse, in the order they can occur. -/
inductive GenPhase
  | ground
  | portals
  | scenery
  | npcs
  | clues
  | objective
  | spawnPoint
deriving DecidableEq, Repr

/-- A portal's destination universe kind. -/
inductive PortalDest
  | main
  | random
deriving DecidableEq, Repr

/-- Modelled from the spec: portal.js (createPortalMesh) is not under src.
Per the spec a Portal is "a WorldObject subtype carrying a destinationType (to
a named universe kind)"; generateUniverse passes that kind as the second
argument and main.js handlePortalUse reads it back as `userData.type`. -/
structure PortalMesh where
  color : Nat
  dest : PortalDest
deriving DecidableEq, Repr

/-- Modelled from the spec: construct a portal carrying its destination. -/
def createPortalMesh (color : Nat) (dest : PortalDest) : PortalMesh := ⟨color, dest⟩

/-- The observable outcome of one generateUniverse call that the ordering and
portal claims are about: the sequence of placement phases executed, and the
activePortals list built during the portal phase. -/
structure GenOutcome where
  phases : List GenPhase
  activePortals : List PortalMesh
deriving DecidableEq, Repr

/-- Placement-phase trace of generateUniverse (src/unnamed/part_000, lines
142-356, the current revision of universeManager.js): ground (platform or
disk) is placed first; then the portal phase resets activePortals and pushes
one 'random' portal for the main hub or a 'main' portal followed by a 'random'
portal otherwise; then the hub console or biome scenery; then NPCs (non-main,
when the biome has npcSpawnRules); then clues (non-main); then optionally the
mini-objective items (non-main, when the objective chance fires and the biome
has a config, folded into `objectiveRoll`); and finally the player spawn point
search.  Branch conditions are carried as the three booleans. -/
def generateUniverse (isMain hasNpcRules objectiveRoll : Bool) : GenOutcome :=
  let phases : List GenPhase := [GenPhase.ground]
  let activePortals : List PortalMesh :=
    if isMain then
      [createPortalMesh 0x00ff00 PortalDest.random]
    else
      [createPortalMesh 0xff0000 PortalDest.main, createPortalMesh 0x00ff00 PortalDest.random]
  let phases := phases ++ [GenPhase.portals, GenPhase.scenery]
  let phases := if !isMain && hasNpcRules then phases ++ [GenPhase.npcs] else phases
  let phases := if !isMain then phases ++ [GenPhase.clues] else phases
  let phases := if !isMain && objectiveRoll then phases ++ [GenPhase.objective] else phases
  ⟨phases ++ [GenPhase.spawnPoint], activePortals⟩

/-- player.js performCollisionDetection: the step-up allowance (0.2). -/
def stepHeight : ℚ := 1/5

/-- The mutable state threaded through the player's obstacle loop:
correctedDelta, velocity, the direct mesh.position.y bump done by the step-up
branch, and the grounded flag. -/
structure PlayerColState where
  dx : ℚ
  dy : ℚ
  dz : ℚ
  vx : ℚ
  vy : ℚ
  vz : ℚ
  bumpY : ℚ
  grounded : Bool
deriving DecidableEq, Repr

/-- JS Math.sign on rationals. -/
def qSign (q : ℚ) : ℚ := if 0 < q then 1 else if q < 0 then -1 else 0

/-- The minimum-penetration selector's running comparison: a fresh positive
penetration beats the current minimum when no axis was selected yet or it is
strictly smaller (the JS loop starts from `minPen = Infinity`). -/
def beatsMin (p : ℚ) (sel : Option (ℚ × Nat)) : Bool :=
  match sel with
  | none => true
  | some m => decide (p < m.1)

/-- player.js performCollisionDetection line 274: skip self, objects without a
bounding box, non-collidable objects, and NPCs. -/
def playerSkip (selfId : Nat) (obj : WorldObject) : Bool :=
  obj.id == selfId || obj.boundingBox.isNone || obj.isNonCollidable || obj.isNPC

/-- One iteration of the player's obstacle loop (player.js lines 271-344).
The future collider is the player collider translated by the current
correctedDelta (the code re-derives it this way after every correction, from
the not-yet-updated `this.collider`, so it is maintained as an invariant
rather than stored).  Ground contact (downward or stationary vertical intent
against an isGround obstacle) either steps up onto a low ledge, moving the
mesh directly, or corrects the vertical delta to land exactly on the surface;
any other contact is resolved by minimum-penetration axis separation. -/
def playerObstacleStep (collider : Box3) (origDeltaY : ℚ) (selfId : Nat)
    (s : PlayerColState) (obj : WorldObject) : PlayerColState :=
  if playerSkip selfId obj then s else
  match obj.boundingBox with
  | none => s
  | some objectBox =>
    let futureCollider := collider.translate ⟨s.dx, s.dy, s.dz⟩
    if futureCollider.intersects objectBox = false then s else
    if origDeltaY ≤ 0 ∧ obj.isGround = true then
      let groundSurfaceY := objectBox.max.y
      let playerBottomFutureY := futureCollider.min.y
      if playerBottomFutureY ≤ groundSurfaceY then
        let groundClearance := groundSurfaceY - collider.min.y
        if groundClearance ≤ stepHeight ∧ -(1/10) < groundClearance then
          { s with bumpY := s.bumpY + (groundSurfaceY - collider.min.y),
                   dy := 0, vy := 0, grounded := true }
        else
          { s with dy := s.dy + (groundSurfaceY - playerBottomFutureY),
                   vy := 0, grounded := true }
      else s
    else
      let centerPlayer := futureCollider.center
      let centerObject := objectBox.center
      let halfSizePlayer := Vec3.smul (1/2) futureCollider.size
      let halfSizeObject := Vec3.smul (1/2) objectBox.size
      let pX := halfSizePlayer.x + halfSizeObject.x - |centerPlayer.x - centerObject.x|
      let pY := halfSizePlayer.y + halfSizeObject.y - |centerPlayer.y - centerObject.y|
      let pZ := halfSizePlayer.z + halfSizeObject.z - |centerPlayer.z - centerObject.z|
      let sel : Option (ℚ × Nat) := if 0 < pX then some (pX, 0) else none
      let sel : Option (ℚ × Nat) :=
        if 0 < pY ∧ beatsMin pY sel = true then some (pY, 1) else sel
      let sel : Option (ℚ × Nat) :=
        if 0 < pZ ∧ beatsMin pZ sel = true then some (pZ, 2) else sel
      match sel with
      | none => s
      | some (minPen, 0) =>
        let sg := qSign (centerPlayer.x - centerObject.x)
        { s with dx := s.dx - minPen * sg, vx := 0 }
      | some (minPen, 1) =>
        let sg := qSign (centerPlayer.y - centerObject.y)
        if s.grounded = false ∨ sg < 0 then
          { s with dy := s.dy - minPen * sg,
                   vy := if (0 < s.vy ∧ sg < 0) ∨ (s.vy < 0 ∧ 0 < sg) then 0 else s.vy }
        else s
      | some (minPen, 2) =>
        let sg := qSign (centerPlayer.z - centerObject.z)
        { s with dz := s.dz - minPen * sg, vz := 0 }
      | some (_, _) => s

/-- player.js performCollisionDetection (lines 262-348): fold the obstacle
step over the world list, starting from the intended displacement and current
velocity, with no position bump and the grounded flag cleared. -/
def performCollisionDetection (collider : Box3) (delta vel : Vec3) (selfId : Nat)
    (worldObjects : List WorldObject) : PlayerColState :=
  worldObjects.foldl (playerObstacleStep collider delta.y selfId)
    { dx := delta.x, dy := delta.y, dz := delta.z,
      vx := vel.x, vy := vel.y, vz := vel.z, bumpY := 0, grounded := false }

/-- The state threaded through the NPC obstacle loop: correctedDelta, the
horizontal velocity components it may zero, and the stuck timer it may bump. -/
structure NpcColState where
  dx : ℚ
  dy : ℚ
  dz : ℚ
  vx : ℚ
  vz : ℚ
  stuckTimer : ℚ
deriving DecidableEq, Repr

/-- npc.js applyNPCPhysicsAndCollision line 570 (current revision): skip self,
ground, the player, other NPCs, and objects without a bounding box. -/
def npcSkip (selfId : Nat) (obj : WorldObject) : Bool :=
  obj.id == selfId || obj.isGround || obj.isPlayer || obj.isNPC || obj.boundingBox.isNone

/-- npc.js applyNPCPhysicsAndCollision lines 566-587 (current revision): the
NPC's future collider (its bounding box translated by correctedDelta, computed
once before the loop) is tested against each non-skipped obstacle; the first
hit zeroes the horizontal velocity and horizontal delta, bumps the stuck timer
by 0.2, and breaks out of the loop. -/
def npcObstacleLoop (npcColliderFuture : Box3) (selfId : Nat) (s : NpcColState) :
    List WorldObject → NpcColState
  | [] => s
  | obj :: rest =>
    if npcSkip selfId obj then npcObstacleLoop npcColliderFuture selfId s rest
    else
      match obj.boundingBox with
      | none => npcObstacleLoop npcColliderFuture selfId s rest
      | some b =>
        if npcColliderFuture.intersects b then
          { s with vx := 0, vz := 0, dx := 0, dz := 0, stuckTimer := s.stuckTimer + 1/5 }
        else npcObstacleLoop npcColliderFuture selfId s rest

/-- player.js update lines 240-250: clamp the player to the universe disk.
`r` stands for the exact length of the horizontal position vector (the JS code
evaluates it through atan2/cos/sin: `cos (atan2 z x) = x / r` and
`sin (atan2 z x) = z / r`, and normalizing the clamped horizontal position
yields the same unit vector `(x / r, 0, z / r)`).  Outside the allowed radius
the position is set radially onto the boundary and 1.1 times any positive
outward velocity component is subtracted. -/
def playerBoundaryStep (currentRadius : ℚ) (pos vel : Vec3) (r : ℚ) : Vec3 × Vec3 :=
  let maxDist := currentRadius - PLAYER_RADIUS
  if maxDist * maxDist < pos.x * pos.x + pos.z * pos.z then
    let outward : Vec3 := ⟨pos.x / r, 0, pos.z / r⟩
    let clamped : Vec3 := ⟨(pos.x / r) * maxDist, pos.y, (pos.z / r) * maxDist⟩
    let outwardSpeed := vel.x * outward.x + vel.y * outward.y + vel.z * outward.z
    let vel2 := if 0 < outwardSpeed then vel.sub (Vec3.smul (outwardSpeed * (11/10)) outward)
                else vel
    (clamped, vel2)
  else (pos, vel)

/-- npc.js applyNPCPhysicsAndCollision lines 551-562 (current revision): when
the tentative position is beyond 95% of UNIVERSE_RADIUS, push it back along
the outward direction by 1.1 times the excess distance, adjust the delta the
same way, remove any positive outward velocity component, and bump the stuck
timer by 0.1.  `r` stands for `Math.sqrt(distSq)`. -/
def npcBoundaryStep (potentialPos vel delta : Vec3) (stuckTimer r : ℚ) :
    Vec3 × Vec3 × Vec3 × ℚ :=
  let maxDist := UNIVERSE_RADIUS * (19/20)
  if maxDist * maxDist < potentialPos.x * potentialPos.x + potentialPos.z * potentialPos.z then
    let outward : Vec3 := ⟨potentialPos.x / r, 0, potentialPos.z / r⟩
    let pushBack := Vec3.smul ((r - maxDist) * (11/10)) outward
    let pos2 := potentialPos.sub pushBack
    let delta2 := delta.sub pushBack
    let outwardSpeed := vel.x * outward.x + vel.y * outward.y + vel.z * outward.z
    let vel2 := if 0 < outwardSpeed then vel.sub (Vec3.smul outwardSpeed outward) else vel
    (pos2, vel2, delta2, stuckTimer + 1/10)
  else (potentialPos, vel, delta, stuckTimer)

/-- The NPC behavior kinds that appear in the biome spawn rules. -/
inductive NPCBehavior
  | wanderer
  | wandererFly
  | guard
  | hint
  | hazardDropper
deriving DecidableEq, Repr

/-- npc.js updateNPC (current revision): STUCK_THRESHOLD_SQ = 0.001. -/
def STUCK_THRESHOLD_SQ : ℚ := 1/1000

/-- npc.js updateNPC: STUCK_TIME_LIMIT = 3.0 seconds. -/
def STUCK_TIME_LIMIT : ℚ := 3

/-- The random draws consumed by one call of setNewNPCTarget, with the
cos/sin evaluations of the sampled angles carried as rational inputs:
`(cosA, sinA)` for the first sampled angle, `uRad` for the uniform radius
fraction, `flyY` for the flying target height draw, `(cosAway, sinAway)` for
the opposite-side angle's evaluations, and `uAwayRad` for the 0.7..1.0 radius
fraction of the fallback target. -/
structure TargetSamples where
  cosA : ℚ
  sinA : ℚ
  uRad : ℚ
  flyY : ℚ
  cosAway : ℚ
  sinAway : ℚ
  uAwayRad : ℚ
deriving DecidableEq, Repr

/-- npc.js setNewNPCTarget (lines 596-615, current revision): sample a target
inside the wander radius (90% of it when flying, 80% otherwise) at the current
height for ground NPCs or a drawn height for flyers; if that target is within
3 units (squared length of the offset below 9) replace it by a point roughly
opposite the NPC's angular position at 0.7..1.0 of the wander radius. -/
def setNewNPCTarget (smp : TargetSamples) (pos : Vec3) (canFly : Bool)
    (universeRadius : ℚ) : Vec3 :=
  let wanderRadius := universeRadius * (if canFly then 9/10 else 4/5)
  let targetRadius := smp.uRad * wanderRadius
  let targetY := if canFly then smp.flyY else pos.y
  let potentialTarget : Vec3 := ⟨smp.cosA * targetRadius, targetY, smp.sinA * targetRadius⟩
  let dirAway := potentialTarget.sub pos
  if dirAway.lengthSq < 9 then
    let radiusAway := wanderRadius * smp.uAwayRad
    ⟨smp.cosAway * radiusAway, targetY, smp.sinAway * radiusAway⟩
  else potentialTarget

/-- The per-agent state read and written by the stuck-detection block. -/
structure StuckState where
  isWaiting : Bool
  stuckTimer : ℚ
  lastPosition : Vec3
  targetPosition : Vec3
  vx : ℚ
  vz : ℚ
deriving DecidableEq, Repr

/-- npc.js updateNPC lines 424-449 (current revision), the stuck-detection
block: for a non-waiting, non-hint agent with positive delta time, accumulate
the stuck timer while the squared movement since the last recorded position
stays below the time-scaled threshold (resetting the timer and the recorded
position otherwise); once the timer exceeds the limit, assign a fresh wander
target via setNewNPCTarget, zero the timer, and nudge the horizontal velocity
by the drawn amounts times speed * 0.2.  Waiting or hint agents just clear the
timer (and non-hint agents also refresh the recorded position).  The returned
boolean reports whether a new target was assigned. -/
def npcStuckCheck (behavior : NPCBehavior) (deltaTime : ℚ) (pos : Vec3) (canFly : Bool)
    (universeRadius speed : ℚ) (smp : TargetSamples) (nudgeX nudgeZ : ℚ)
    (s : StuckState) : StuckState × Bool :=
  if s.isWaiting = false ∧ behavior ≠ NPCBehavior.hint ∧ 0 < deltaTime then
    let distMovedSq := pos.distanceToSquared s.lastPosition
    let s1 :=
      if distMovedSq < STUCK_THRESHOLD_SQ * (deltaTime / (16/1000))
      then { s with stuckTimer := s.stuckTimer + deltaTime }
      else { s with stuckTimer := 0, lastPosition := pos }
    if STUCK_TIME_LIMIT < s1.stuckTimer then
      ({ s1 with targetPosition := setNewNPCTarget smp pos canFly universeRadius,
                 isWaiting := false,
                 stuckTimer := 0,
                 vx := s1.vx + nudgeX * speed * (1/5),
                 vz := s1.vz + nudgeZ * speed * (1/5) }, true)
    else (s1, false)
  else
    ({ s with stuckTimer := 0,
              lastPosition := if behavior ≠ NPCBehavior.hint then pos else s.lastPosition },
     false)

/-- A clue mesh as handleClueCollect sees it: its identity in the world list
and the master-list index stored in `userData.originalIndex`. -/
structure ClueMesh where
  id : Nat
  originalIndex : Nat
deriving DecidableEq, Repr

/-- The cross-universe game state that handleClueCollect mutates. -/
structure GameState where
  clueScore : Nat
  collectedClueIndices : List Nat
  worldObjects : List Nat
deriving DecidableEq, Repr

/-- main.js handleClueCollect (lines 228-268): when the clue's originalIndex
is not yet recorded, append it and increment clueScore; in every case remove
the mesh from the world list (UI and audio effects are external). -/
def handleClueCollect (st : GameState) (clue : ClueMesh) : GameState :=
  if st.collectedClueIndices.contains clue.originalIndex then
    { st with worldObjects := st.worldObjects.filter fun objId => objId ≠ clue.id }
  else
    { clueScore := st.clueScore + 1,
      collectedClueIndices := st.collectedClueIndices ++ [clue.originalIndex],
      worldObjects := st.worldObjects.filter fun objId => objId ≠ clue.id }

/-- Concrete inputs used by the witnesses and counterexamples. -/
def witFarObj : WorldObject :=
  ⟨1, false, false, false, false, true, false, false, some ⟨⟨10, 10, 10⟩, ⟨11, 11, 11⟩⟩⟩

/-- A world object whose box covers the whole disk, blocking every attempt. -/
def witBlockObj : WorldObject :=
  ⟨1, false, false, false, false, true, false, false, some ⟨⟨-100, -100, -100⟩, ⟨100, 100, 100⟩⟩⟩

/-- A candidate at the origin with a unit-radius box. -/
def witCand : Candidate := ⟨⟨0, 0, 0⟩, ⟨⟨-1, -1, -1⟩, ⟨1, 1, 1⟩⟩⟩

/-- A flat ground slab with its top surface at height 0. -/
def flatGround : GroundObj := ⟨true, 0, -15, 15, -15, 15⟩

/-! ## Theorems -/

theorem isPlacementAreaClearBox_no_intersect
    (cb : Box3) (world : List WorldObject) (selfId : Nat)
    (hclear : isPlacementAreaClearBox cb world selfId = true) :
    ∀ obj ∈ world, (obj.id == selfId) = false → obj.isGround = false →
      ∀ b, obj.boundingBox = some b → cb.intersects b = false := by
  intro obj hmem hid hground b hbb
  have hall := (List.all_eq_true.mp hclear) obj hmem
  simp only [hid, hground, Bool.or_self, Bool.false_or, if_neg] at hall
  rw [hbb] at hall
  simpa using hall

theorem placeLoop_accepted_clear
    (cands : Nat → Candidate) (world : List WorldObject) (selfId : Nat) (cm : ℚ) :
    ∀ (fuel i : Nat) (last : Candidate),
      (placeLoop cands world selfId cm fuel i last).1 = true →
      isPlacementAreaClearBox
        (placementCheckBounds ((placeLoop cands world selfId cm fuel i last).2).bbox cm)
        world selfId = true := by
  intro fuel
  induction fuel with
  | zero => intro i last h; simp [placeLoop] at h
  | succ n ih =>
    intro i last h
    by_cases hc :
        isPlacementAreaClearBox (placementCheckBounds (cands i).bbox cm) world selfId = true
    · simp [placeLoop, hc]
    · simp only [placeLoop, hc, if_false] at h ⊢
      exact ih (i + 1) (cands i) h

/-- Claim C1: whenever placeObjectRandomly reports success, the accepted
candidate's clearance-inflated bounding box does not intersect the bounding
box of any object of the supplied check list that is not ground-tagged and is
not the object being placed itself. -/
theorem placeObjectRandomly_accepted_clear
    (cands : Nat → Candidate) (world : List WorldObject) (selfId : Nat) (cm : ℚ)
    (init : Candidate)
    (hs : (placeObjectRandomly cands world selfId cm init).1 = true) :
    ∀ obj ∈ world, (obj.id == selfId) = false → obj.isGround = false →
      ∀ b, obj.boundingBox = some b →
        (placementCheckBounds
          ((placeObjectRandomly cands world selfId cm init).2).bbox cm).intersects b
          = false := by
  have hclear := placeLoop_accepted_clear cands world selfId cm MAX_PLACEMENT_ATTEMPTS 0 init hs
  exact isPlacementAreaClearBox_no_intersect _ world selfId hclear

/-- Witness for claim C1 at a concrete call: one far-away scenery object, a
unit candidate at the origin; the call succeeds and the accepted clearance box
indeed misses the scenery object's box. -/
theorem placeObjectRandomly_accepted_clear_witness :
    (placeObjectRandomly (fun _ => witCand) [witFarObj] 0 (6/5) witCand).1 = true ∧
    (placementCheckBounds
      ((placeObjectRandomly (fun _ => witCand) [witFarObj] 0 (6/5) witCand).2).bbox
      (6/5)).intersects ⟨⟨10, 10, 10⟩, ⟨11, 11, 11⟩⟩ = false := by
  have hs : (placeObjectRandomly (fun _ => witCand) [witFarObj] 0 (6/5) witCand).1 = true := by
    norm_num [placeObjectRandomly, MAX_PLACEMENT_ATTEMPTS, placeLoop, isPlacementAreaClearBox,
      witFarObj, witCand, placementCheckBounds, Box3.intersects, Box3.expandByVector,
      Box3.size, Vec3.smul, Vec3.sub, Vec3.add]
  refine ⟨hs, ?_⟩
  exact placeObjectRandomly_accepted_clear (fun _ => witCand) [witFarObj] 0 (6/5) witCand hs
    witFarObj (by simp) (by rfl) (by rfl) _ (by rfl)

theorem placeLoop_stream_agree
    (cands cands2 : Nat → Candidate) (world : List WorldObject) (selfId : Nat) (cm : ℚ) :
    ∀ (fuel i : Nat) (last : Candidate),
      (∀ j, i ≤ j → j < i + fuel → cands j = cands2 j) →
      placeLoop cands world selfId cm fuel i last
        = placeLoop cands2 world selfId cm fuel i last := by
  intro fuel
  induction fuel with
  | zero => intro i last _; simp [placeLoop]
  | succ n ih =>
    intro i last hagree
    have hi : cands i = cands2 i := hagree i le_rfl (by omega)
    simp only [placeLoop, hi]
    by_cases hc :
        isPlacementAreaClearBox (placementCheckBounds (cands2 i).bbox cm) world selfId = true
    · simp [hc]
    · simp only [hc, if_false]
      exact ih (i + 1) (cands2 i) (fun j hj1 hj2 => hagree j (by omega) (by omega))

theorem placeLoop_all_fail
    (cands : Nat → Candidate) (world : List WorldObject) (selfId : Nat) (cm : ℚ) :
    ∀ (fuel i : Nat) (last : Candidate), 0 < fuel →
      (∀ j, i ≤ j → j < i + fuel →
        isPlacementAreaClearBox (placementCheckBounds (cands j).bbox cm) world selfId = false) →
      placeLoop cands world selfId cm fuel i last = (false, cands (i + fuel - 1)) := by
  intro fuel
  induction fuel with
  | zero => intro i last h; omega
  | succ n ih =>
    intro i last _ hfail
    have hi := hfail i le_rfl (by omega)
    simp only [placeLoop, hi, Bool.false_eq_true, if_false]
    cases n with
    | zero =>
      simp only [placeLoop, Nat.add_sub_cancel]
    | succ m =>
      have harg : i + 1 + (m + 1) - 1 = i + (m + 1 + 1) - 1 := by omega
      rw [ih (i + 1) (cands i) (by omega)
        (fun j hj1 hj2 => hfail j (by omega) (by omega)), harg]

/-- Claim C2: placeObjectRandomly samples at most MAX_PLACEMENT_ATTEMPTS = 15
candidate positions — its result depends only on the first 15 draws of the
random stream — and it always terminates (it is a total function); when every
one of the 15 attempts collides it returns false, reporting failure, with the
object left at the last (15th) sampled candidate. -/
theorem placeObjectRandomly_attempt_budget
    (cands cands2 : Nat → Candidate) (world : List WorldObject) (selfId : Nat)
    (cm : ℚ) (init : Candidate) :
    ((∀ i, i < MAX_PLACEMENT_ATTEMPTS → cands i = cands2 i) →
      placeObjectRandomly cands world selfId cm init
        = placeObjectRandomly cands2 world selfId cm init) ∧
    ((∀ i, i < MAX_PLACEMENT_ATTEMPTS →
        isPlacementAreaClearBox (placementCheckBounds (cands i).bbox cm) world selfId = false) →
      placeObjectRandomly cands world selfId cm init = (false, cands 14)) := by
  constructor
  · intro h
    exact placeLoop_stream_agree cands cands2 world selfId cm MAX_PLACEMENT_ATTEMPTS 0 init
      (fun j _ hj2 => h j (by simpa using hj2))
  · intro h
    have hall := placeLoop_all_fail cands world selfId cm MAX_PLACEMENT_ATTEMPTS 0 init
      (by norm_num [MAX_PLACEMENT_ATTEMPTS])
      (fun j _ hj2 => h j (by simpa using hj2))
    simpa [placeObjectRandomly, MAX_PLACEMENT_ATTEMPTS] using hall

/-- Witness for claim C2 at a concrete forced-impossible call: an obstacle box
filling the whole disk makes every attempt collide, and the call returns
failure with the object at the last sampled candidate. -/
theorem placeObjectRandomly_attempt_budget_witness :
    (∀ i, i < MAX_PLACEMENT_ATTEMPTS →
      isPlacementAreaClearBox (placementCheckBounds ((fun _ => witCand) i).bbox 1)
        [witBlockObj] 0 = false) ∧
    placeObjectRandomly (fun _ => witCand) [witBlockObj] 0 1 witCand = (false, witCand) := by
  have hfail : ∀ i, i < MAX_PLACEMENT_ATTEMPTS →
      isPlacementAreaClearBox (placementCheckBounds ((fun _ => witCand) i).bbox 1)
        [witBlockObj] 0 = false := by
    intro i _
    norm_num [isPlacementAreaClearBox, witBlockObj, witCand, placementCheckBounds,
      Box3.intersects]
  exact ⟨hfail, (placeObjectRandomly_attempt_budget (fun _ => witCand) (fun _ => witCand)
    [witBlockObj] 0 1 witCand).2 hfail⟩


theorem listMaxQ_none_iff : ∀ l : List ℚ, listMaxQ l = none → l = [] := by
  intro l h
  cases l with
  | nil => rfl
  | cons a t =>
    unfold listMaxQ at h
    cases ht : listMaxQ t with
    | none => rw [ht] at h; simp at h
    | some m => rw [ht] at h; simp at h

theorem listMaxQ_mem : ∀ (l : List ℚ) (q : ℚ), listMaxQ l = some q → q ∈ l := by
  intro l
  induction l with
  | nil => intro q h; simp [listMaxQ] at h
  | cons a t ih =>
    intro q h
    unfold listMaxQ at h
    cases ht : listMaxQ t with
    | none =>
      rw [ht] at h
      simp only [Option.some.injEq] at h
      exact h ▸ List.mem_cons_self a t
    | some m =>
      rw [ht] at h
      simp only [Option.some.injEq] at h
      rcases max_choice a m with hc | hc
      · rw [hc] at h
        exact h ▸ List.mem_cons_self a t
      · rw [hc] at h
        exact List.mem_cons_of_mem a (h ▸ ih m ht)

theorem listMaxQ_isMax : ∀ (l : List ℚ) (q : ℚ), listMaxQ l = some q → ∀ x ∈ l, x ≤ q := by
  intro l
  induction l with
  | nil => intro q _ x hx; simp at hx
  | cons a t ih =>
    intro q h x hx
    unfold listMaxQ at h
    cases ht : listMaxQ t with
    | none =>
      rw [ht] at h
      simp only [Option.some.injEq] at h
      have hte := listMaxQ_none_iff t ht
      subst hte
      rcases List.mem_singleton.mp hx with hxa
      exact hxa ▸ h ▸ le_refl a
    | some m =>
      rw [ht] at h
      simp only [Option.some.injEq] at h
      rcases List.mem_cons.mp hx with hxa | hxt
      · exact hxa ▸ h ▸ le_max_left a m
      · exact le_trans (ih m ht x hxt) (h ▸ le_max_right a m)

theorem rayHitDown_some (origin : Vec3) (far : ℚ) (g : GroundObj) (t : ℚ)
    (h : rayHitDown origin far g = some t) :
    t = g.top ∧ g.top ≤ origin.y ∧ origin.y - g.top ≤ far := by
  unfold rayHitDown at h
  split_ifs at h with hc
  simp only [Option.some.injEq] at h
  exact ⟨h.symm, hc.2.2.2.2.1, hc.2.2.2.2.2⟩

/-- Claim C3 (amended): any height findGroundHeight returns is the top surface
of an isGround object hit by the bounded downward ray, which starts 5 units
above the query point and reaches 20 units down — so the returned height lies
between position.y - 15 and position.y + 5 (it can equal or exceed the query's
own y) and is the greatest (nearest-to-origin) such hit; and the query returns
none — never NaN, which does not exist in this exact model — whenever the ray
hits no ground object. -/
theorem findGroundHeight_offset_ray (position : Vec3) (world : List GroundObj) :
    (∀ q, findGroundHeight position world = some q →
      (position.y - 15 ≤ q ∧ q ≤ position.y + 5) ∧
      (∃ g ∈ world, g.isGround = true ∧ g.top = q) ∧
      (∀ g ∈ world, g.isGround = true →
        ∀ t, rayHitDown ⟨position.x, position.y + 5, position.z⟩ 20 g = some t → t ≤ q)) ∧
    ((world.filter fun o => o.isGround).filterMap
        (rayHitDown ⟨position.x, position.y + 5, position.z⟩ 20) = [] →
      findGroundHeight position world = none) := by
  constructor
  · intro q h
    unfold findGroundHeight at h
    split_ifs at h with hempty
    have hqmem := listMaxQ_mem _ q h
    rcases List.mem_filterMap.mp hqmem with ⟨g, hgmem, hghit⟩
    have hgw : g ∈ world ∧ g.isGround = true := by
      have := List.mem_filter.mp hgmem
      exact ⟨this.1, by simpa using this.2⟩
    rcases rayHitDown_some _ _ _ _ hghit with ⟨hqt, htle, htfar⟩
    have htle2 : g.top ≤ position.y + 5 := htle
    have htfar2 : position.y + 5 - g.top ≤ 20 := htfar
    refine ⟨⟨?_, ?_⟩, ⟨g, hgw.1, hgw.2, hqt.symm⟩, ?_⟩
    · rw [hqt]; linarith
    · rw [hqt]; linarith
    · intro g2 hg2 hg2ground t ht
      have htmem : t ∈ (world.filter fun o => o.isGround).filterMap
          (rayHitDown ⟨position.x, position.y + 5, position.z⟩ 20) := by
        exact List.mem_filterMap.mpr ⟨g2, List.mem_filter.mpr ⟨hg2, by simp [hg2ground]⟩, ht⟩
      exact listMaxQ_isMax _ q h t htmem
  · intro hnil
    unfold findGroundHeight
    split_ifs with hempty
    · rfl
    · rw [hnil]
      rfl

/-- Claim C3 counterexample: with the disk ground's top surface at height 0, a
query from a point resting exactly on that surface returns height 0, which is
not strictly below the query point's y coordinate. -/
theorem findGroundHeight_not_strictly_below :
    findGroundHeight ⟨0, 0, 0⟩ [flatGround] = some 0 ∧
    ¬ ((0 : ℚ) < (⟨0, 0, 0⟩ : Vec3).y) := by
  constructor
  · norm_num [findGroundHeight, flatGround, rayHitDown, listMaxQ,
      List.filterMap_cons, List.filterMap_nil]
  · norm_num

/-- Witness for claim C3 (amended) at a concrete query one unit above the
ground disk: the query returns the surface height 0, inside the ray window,
produced by a ground-tagged object of the world list. -/
theorem findGroundHeight_offset_ray_witness :
    findGroundHeight ⟨0, 1, 0⟩ [flatGround] = some 0 ∧
    ((⟨0, 1, 0⟩ : Vec3).y - 15 ≤ 0 ∧ (0 : ℚ) ≤ (⟨0, 1, 0⟩ : Vec3).y + 5) ∧
    (∃ g ∈ [flatGround], g.isGround = true ∧ g.top = 0) := by
  have hq : findGroundHeight ⟨0, 1, 0⟩ [flatGround] = some 0 := by
    norm_num [findGroundHeight, flatGround, rayHitDown, listMaxQ,
      List.filterMap_cons, List.filterMap_nil]
  have h := (findGroundHeight_offset_ray ⟨0, 1, 0⟩ [flatGround]).1 0 hq
  exact ⟨hq, h.1, h.2.1⟩

/-- Claim C4: generateUniverse runs its placement phases in the fixed order
ground, then portal(s), then hub console or biome scenery, then NPCs, then
collectible clues, then optionally the mini-objective items, and finally the
player spawn point — in particular the portal phase precedes the scenery, NPC,
clue and objective phases, and the executed phases always form a subsequence
of that canonical order ending with the spawn-point computation. -/
theorem generateUniverse_phase_order :
    ∀ isMain hasNpcRules objectiveRoll : Bool,
      List.Sublist (generateUniverse isMain hasNpcRules objectiveRoll).phases
        [GenPhase.ground, GenPhase.portals, GenPhase.scenery, GenPhase.npcs,
         GenPhase.clues, GenPhase.objective, GenPhase.spawnPoint] ∧
      ((generateUniverse isMain hasNpcRules objectiveRoll).phases.indexOf GenPhase.ground
        < (generateUniverse isMain hasNpcRules objectiveRoll).phases.indexOf GenPhase.portals) ∧
      ((generateUniverse isMain hasNpcRules objectiveRoll).phases.indexOf GenPhase.portals
        < (generateUniverse isMain hasNpcRules objectiveRoll).phases.indexOf GenPhase.scenery) ∧
      ((generateUniverse isMain hasNpcRules objectiveRoll).phases.indexOf GenPhase.portals
        < (generateUniverse isMain hasNpcRules objectiveRoll).phases.indexOf GenPhase.npcs) ∧
      ((generateUniverse isMain hasNpcRules objectiveRoll).phases.indexOf GenPhase.portals
        < (generateUniverse isMain hasNpcRules objectiveRoll).phases.indexOf GenPhase.clues) ∧
      ((generateUniverse isMain hasNpcRules objectiveRoll).phases.indexOf GenPhase.portals
        < (generateUniverse isMain hasNpcRules objectiveRoll).phases.indexOf GenPhase.objective) ∧
      (generateUniverse isMain hasNpcRules objectiveRoll).phases.getLast?
        = some GenPhase.spawnPoint := by
  decide

/-- Claim C6: after every generateUniverse call the active portal set is
exactly one portal with destination 'random' for the main hub, and exactly two
portals — first one back to 'main', then one to another 'random' universe —
for every other universe type. -/
theorem generateUniverse_portal_sets :
    ∀ hasNpcRules objectiveRoll : Bool,
      (generateUniverse true hasNpcRules objectiveRoll).activePortals.map PortalMesh.dest
        = [PortalDest.random] ∧
      (generateUniverse false hasNpcRules objectiveRoll).activePortals.map PortalMesh.dest
        = [PortalDest.main, PortalDest.random] := by
  decide

/-- Claim C5: when the player's intended vertical displacement is non-positive
and its projected bottom reaches the top surface of the isGround obstacle it
collides with, the collision resolver ends the frame with vertical velocity
zero, the grounded flag set, and the collider bottom — after the resolver's
own mesh bump and the corrected delta are applied — exactly at that obstacle's
top-surface Y. -/
theorem performCollisionDetection_ground_landing
    (collider : Box3) (delta vel : Vec3) (selfId : Nat) (g : WorldObject) (b : Box3)
    (hbb : g.boundingBox = some b) (hskip : playerSkip selfId g = false)
    (hg : g.isGround = true) (hdy : delta.y ≤ 0)
    (hint : (collider.translate delta).intersects b = true)
    (hbot : (collider.translate delta).min.y ≤ b.max.y) :
    (performCollisionDetection collider delta vel selfId [g]).vy = 0 ∧
    (performCollisionDetection collider delta vel selfId [g]).grounded = true ∧
    collider.min.y + (performCollisionDetection collider delta vel selfId [g]).bumpY
      + (performCollisionDetection collider delta vel selfId [g]).dy = b.max.y := by
  have hveta : Box3.translate collider ⟨delta.x, delta.y, delta.z⟩
      = Box3.translate collider delta := rfl
  have htmin : (Box3.translate collider delta).min.y = collider.min.y + delta.y := rfl
  unfold performCollisionDetection
  simp only [List.foldl_cons, List.foldl_nil]
  unfold playerObstacleStep
  rw [hbb]
  simp only [hskip, hg, hveta, hint, Bool.false_eq_true, Bool.true_eq_false, if_false,
    and_true, eq_self_iff_true, if_true]
  rw [if_pos hdy, if_pos hbot]
  split_ifs with hstep
  · refine ⟨rfl, rfl, ?_⟩
    simp only
    ring
  · refine ⟨rfl, rfl, ?_⟩
    simp only [htmin]
    ring

/-- Witness for claim C5 at a concrete frame: a player box falling by 1 onto a
ground slab whose top is at -1/5 ends with zero vertical velocity, grounded,
and its bottom exactly at -1/5. -/
theorem performCollisionDetection_ground_landing_witness :
    (performCollisionDetection ⟨⟨-2/5, 0, -2/5⟩, ⟨2/5, 9/5, 2/5⟩⟩ ⟨0, -1, 0⟩ ⟨0, -5, 0⟩ 0
      [⟨1, true, false, false, false, false, false, false,
        some ⟨⟨-5, -1, -5⟩, ⟨5, -1/5, 5⟩⟩⟩]).vy = 0 ∧
    (performCollisionDetection ⟨⟨-2/5, 0, -2/5⟩, ⟨2/5, 9/5, 2/5⟩⟩ ⟨0, -1, 0⟩ ⟨0, -5, 0⟩ 0
      [⟨1, true, false, false, false, false, false, false,
        some ⟨⟨-5, -1, -5⟩, ⟨5, -1/5, 5⟩⟩⟩]).grounded = true ∧
    (⟨⟨-2/5, 0, -2/5⟩, ⟨2/5, 9/5, 2/5⟩⟩ : Box3).min.y
      + (performCollisionDetection ⟨⟨-2/5, 0, -2/5⟩, ⟨2/5, 9/5, 2/5⟩⟩ ⟨0, -1, 0⟩ ⟨0, -5, 0⟩ 0
          [⟨1, true, false, false, false, false, false, false,
            some ⟨⟨-5, -1, -5⟩, ⟨5, -1/5, 5⟩⟩⟩]).bumpY
      + (performCollisionDetection ⟨⟨-2/5, 0, -2/5⟩, ⟨2/5, 9/5, 2/5⟩⟩ ⟨0, -1, 0⟩ ⟨0, -5, 0⟩ 0
          [⟨1, true, false, false, false, false, false, false,
            some ⟨⟨-5, -1, -5⟩, ⟨5, -1/5, 5⟩⟩⟩]).dy
      = (⟨⟨-5, -1, -5⟩, ⟨5, -1/5, 5⟩⟩ : Box3).max.y := by
  have h := performCollisionDetection_ground_landing
    ⟨⟨-2/5, 0, -2/5⟩, ⟨2/5, 9/5, 2/5⟩⟩ ⟨0, -1, 0⟩ ⟨0, -5, 0⟩ 0
    ⟨1, true, false, false, false, false, false, false,
      some ⟨⟨-5, -1, -5⟩, ⟨5, -1/5, 5⟩⟩⟩
    ⟨⟨-5, -1, -5⟩, ⟨5, -1/5, 5⟩⟩
    rfl rfl rfl (by norm_num)
    (by norm_num [Box3.translate, Box3.intersects, Vec3.add])
    (by norm_num [Box3.translate, Vec3.add])
  exact h

theorem playerObstacleStep_skip (collider : Box3) (origDeltaY : ℚ) (selfId : Nat)
    (s : PlayerColState) (obj : WorldObject) (h : playerSkip selfId obj = true) :
    playerObstacleStep collider origDeltaY selfId s obj = s := by
  simp [playerObstacleStep, h]

theorem foldl_playerObstacleStep_filter_npc (collider : Box3) (origDeltaY : ℚ) (selfId : Nat) :
    ∀ (objs : List WorldObject) (s : PlayerColState),
      objs.foldl (playerObstacleStep collider origDeltaY selfId) s
        = (objs.filter fun o => !o.isNPC).foldl
            (playerObstacleStep collider origDeltaY selfId) s := by
  intro objs
  induction objs with
  | nil => intro s; rfl
  | cons a rest ih =>
    intro s
    by_cases ha : a.isNPC = true
    · have hskip : playerSkip selfId a = true := by simp [playerSkip, ha]
      simp only [List.foldl_cons, List.filter_cons, ha, Bool.not_true, Bool.false_eq_true,
        if_false, playerObstacleStep_skip collider origDeltaY selfId s a hskip]
      exact ih s
    · have ha2 : a.isNPC = false := by simpa using ha
      simp only [List.foldl_cons, List.filter_cons, ha2, Bool.not_false, if_true]
      exact ih _

theorem npcObstacleLoop_filter (future : Box3) (selfId : Nat) :
    ∀ (objs : List WorldObject) (t : NpcColState),
      npcObstacleLoop future selfId t objs
        = npcObstacleLoop future selfId t
            (objs.filter fun o => !(o.isNPC || o.isPlayer)) := by
  intro objs
  induction objs with
  | nil => intro t; rfl
  | cons a rest ih =>
    intro t
    by_cases ha : (a.isNPC || a.isPlayer) = true
    · have hskip : npcSkip selfId a = true := by
        rcases (Bool.or_eq_true _ _).mp ha with h | h <;> simp [npcSkip, h]
      simp only [List.filter_cons, ha, Bool.not_true, Bool.false_eq_true, if_false]
      simp only [npcObstacleLoop, hskip, if_true]
      exact ih t
    · have ha2 : (a.isNPC || a.isPlayer) = false := by simpa using ha
      simp only [List.filter_cons, ha2, Bool.not_false, if_true]
      by_cases hskip : npcSkip selfId a = true
      · simp only [npcObstacleLoop, hskip, if_true]
        exact ih t
      · have hskip2 : npcSkip selfId a = false := by simpa using hskip
        cases hbb : a.boundingBox with
        | none =>
          simp only [npcObstacleLoop, hskip2, Bool.false_eq_true, if_false, hbb]
          exact ih t
        | some b =>
          by_cases hi : future.intersects b = true
          · simp only [npcObstacleLoop, hskip2, Bool.false_eq_true, if_false, hbb, hi, if_true]
          · have hi2 : future.intersects b = false := by simpa using hi
            simp only [npcObstacleLoop, hskip2, Bool.false_eq_true, if_false, hbb, hi2]
            exact ih t

/-- Claim C7: the player's collision resolution skips exactly the NPC-tagged
obstacles — its resulting state is the fold over the obstacle list with NPC
objects removed, so corrected displacement and velocity are as if they were
absent — and the NPC obstacle loop likewise ignores NPC-tagged objects and the
player-tagged object (its result is the loop over the list with those
removed), while an object that is not self, not ground, not player, not NPC
and has a bounding box — portals, scenery and hazards included — is never
skipped by the NPC loop's filter. -/
theorem collision_pair_filtering
    (collider : Box3) (origDeltaY : ℚ) (selfId : Nat) (s : PlayerColState)
    (future : Box3) (t : NpcColState) (objs : List WorldObject) :
    (objs.foldl (playerObstacleStep collider origDeltaY selfId) s
      = (objs.filter fun o => !o.isNPC).foldl
          (playerObstacleStep collider origDeltaY selfId) s) ∧
    (npcObstacleLoop future selfId t objs
      = npcObstacleLoop future selfId t
          (objs.filter fun o => !(o.isNPC || o.isPlayer))) ∧
    (∀ obj : WorldObject, (obj.id == selfId) = false → obj.isGround = false →
      obj.isPlayer = false → obj.isNPC = false → obj.boundingBox.isNone = false →
      npcSkip selfId obj = false) := by
  refine ⟨foldl_playerObstacleStep_filter_npc collider origDeltaY selfId objs s,
    npcObstacleLoop_filter future selfId objs t, ?_⟩
  intro obj h1 h2 h3 h4 h5
  simp [npcSkip, h1, h2, h3, h4, h5]

/-- Witness for claim C7 at a concrete configuration: one NPC-tagged obstacle
is ignored by the player fold (same state as over the empty filtered list),
the NPC loop over an NPC and a player object equals the loop over the filtered
list, and a portal-tagged collidable object is not skipped by the NPC loop. -/
theorem collision_pair_filtering_witness :
    ([(⟨2, false, true, false, false, false, false, false,
        some ⟨⟨0, 0, 0⟩, ⟨1, 1, 1⟩⟩⟩ : WorldObject)].foldl
        (playerObstacleStep ⟨⟨0, 0, 0⟩, ⟨1, 1, 1⟩⟩ 0 0) ⟨0, 0, 0, 0, 0, 0, 0, false⟩
      = ([(⟨2, false, true, false, false, false, false, false,
            some ⟨⟨0, 0, 0⟩, ⟨1, 1, 1⟩⟩⟩ : WorldObject)].filter fun o => !o.isNPC).foldl
          (playerObstacleStep ⟨⟨0, 0, 0⟩, ⟨1, 1, 1⟩⟩ 0 0) ⟨0, 0, 0, 0, 0, 0, 0, false⟩) ∧
    (npcObstacleLoop ⟨⟨0, 0, 0⟩, ⟨1, 1, 1⟩⟩ 0 ⟨0, 0, 0, 0, 0, 0⟩
        [⟨2, false, true, false, false, false, false, false,
          some ⟨⟨0, 0, 0⟩, ⟨1, 1, 1⟩⟩⟩,
         ⟨3, false, false, true, false, false, false, false,
          some ⟨⟨0, 0, 0⟩, ⟨1, 1, 1⟩⟩⟩]
      = npcObstacleLoop ⟨⟨0, 0, 0⟩, ⟨1, 1, 1⟩⟩ 0 ⟨0, 0, 0, 0, 0, 0⟩
          ([⟨2, false, true, false, false, false, false, false,
             some ⟨⟨0, 0, 0⟩, ⟨1, 1, 1⟩⟩⟩,
            ⟨3, false, false, true, false, false, false, false,
             some ⟨⟨0, 0, 0⟩, ⟨1, 1, 1⟩⟩⟩].filter fun o => !(o.isNPC || o.isPlayer))) ∧
    npcSkip 0 ⟨4, false, false, false, false, false, true, false,
      some ⟨⟨0, 0, 0⟩, ⟨1, 1, 1⟩⟩⟩ = false := by
  have h := collision_pair_filtering ⟨⟨0, 0, 0⟩, ⟨1, 1, 1⟩⟩ 0 0 ⟨0, 0, 0, 0, 0, 0, 0, false⟩
    ⟨⟨0, 0, 0⟩, ⟨1, 1, 1⟩⟩ ⟨0, 0, 0, 0, 0, 0⟩
    [⟨2, false, true, false, false, false, false, false, some ⟨⟨0, 0, 0⟩, ⟨1, 1, 1⟩⟩⟩,
     ⟨3, false, false, true, false, false, false, false, some ⟨⟨0, 0, 0⟩, ⟨1, 1, 1⟩⟩⟩]
  refine ⟨?_, h.2.1, h.2.2 _ rfl rfl rfl rfl rfl⟩
  have h2 := collision_pair_filtering ⟨⟨0, 0, 0⟩, ⟨1, 1, 1⟩⟩ 0 0 ⟨0, 0, 0, 0, 0, 0, 0, false⟩
    ⟨⟨0, 0, 0⟩, ⟨1, 1, 1⟩⟩ ⟨0, 0, 0, 0, 0, 0⟩
    [⟨2, false, true, false, false, false, false, false, some ⟨⟨0, 0, 0⟩, ⟨1, 1, 1⟩⟩⟩]
  exact h2.1

theorem playerBoundary_contained (currentRadius : ℚ) (pos vel : Vec3) (r : ℚ)
    (hr : r * r = pos.x * pos.x + pos.z * pos.z) (hr0 : 0 ≤ r)
    (hrad : PLAYER_RADIUS < currentRadius)
    (hout : (currentRadius - PLAYER_RADIUS) * (currentRadius - PLAYER_RADIUS)
      < pos.x * pos.x + pos.z * pos.z) :
    ((playerBoundaryStep currentRadius pos vel r).1.x
        * (playerBoundaryStep currentRadius pos vel r).1.x
      + (playerBoundaryStep currentRadius pos vel r).1.z
        * (playerBoundaryStep currentRadius pos vel r).1.z
      = (currentRadius - PLAYER_RADIUS) * (currentRadius - PLAYER_RADIUS)) ∧
    ((playerBoundaryStep currentRadius pos vel r).2.x
        * (playerBoundaryStep currentRadius pos vel r).1.x
      + (playerBoundaryStep currentRadius pos vel r).2.z
        * (playerBoundaryStep currentRadius pos vel r).1.z ≤ 0) ∧
    (∃ c : ℚ, 0 ≤ c ∧ (playerBoundaryStep currentRadius pos vel r).1.x = c * pos.x
      ∧ (playerBoundaryStep currentRadius pos vel r).1.z = c * pos.z) := by
  have hMpos : (0 : ℚ) < currentRadius - PLAYER_RADIUS := by linarith
  have hrr : 0 < r * r :=
    lt_of_le_of_lt (mul_self_nonneg (currentRadius - PLAYER_RADIUS)) (by rw [hr]; exact hout)
  have hrpos : 0 < r := by
    rcases lt_or_eq_of_le hr0 with h | h
    · exact h
    · exfalso; rw [← h] at hrr; simp at hrr
  have hrne : r ≠ 0 := ne_of_gt hrpos
  have huw : (pos.x / r) * (pos.x / r) + (pos.z / r) * (pos.z / r) = 1 := by
    field_simp
    linarith [hr]
  simp only [playerBoundaryStep, Vec3.sub, Vec3.smul]
  rw [if_pos hout]
  dsimp only
  refine ⟨?_, ?_, ?_⟩
  · linear_combination
      ((currentRadius - PLAYER_RADIUS) * (currentRadius - PLAYER_RADIUS)) * huw
  · split_ifs with hos
    · have hosr : vel.x * (pos.x / r) + vel.y * 0 + vel.z * (pos.z / r)
          = (vel.x * pos.x + vel.z * pos.z) / r := by ring
      have hSpos : 0 < vel.x * pos.x + vel.z * pos.z := by
        rw [hosr] at hos
        have h2 := mul_pos hos hrpos
        rwa [div_mul_cancel₀ _ hrne] at h2
      have hkey : (vel.x - (vel.x * (pos.x / r) + vel.y * 0 + vel.z * (pos.z / r)) * (11/10)
              * (pos.x / r)) * (pos.x / r * (currentRadius - PLAYER_RADIUS))
            + (vel.z - (vel.x * (pos.x / r) + vel.y * 0 + vel.z * (pos.z / r)) * (11/10)
              * (pos.z / r)) * (pos.z / r * (currentRadius - PLAYER_RADIUS))
          = -(1/10) * (currentRadius - PLAYER_RADIUS)
              * (vel.x * pos.x + vel.z * pos.z) / r := by
        linear_combination (-(11/10) * (currentRadius - PLAYER_RADIUS)
          * (vel.x * (pos.x / r) + vel.z * (pos.z / r))) * huw
      rw [hkey]
      have hnum : (0 : ℚ) < (1/10) * (currentRadius - PLAYER_RADIUS)
          * (vel.x * pos.x + vel.z * pos.z) :=
        mul_pos (mul_pos (by norm_num) hMpos) hSpos
      have hfrac : (0 : ℚ) < (1/10) * (currentRadius - PLAYER_RADIUS)
          * (vel.x * pos.x + vel.z * pos.z) / r := div_pos hnum hrpos
      have heq : -(1/10) * (currentRadius - PLAYER_RADIUS)
            * (vel.x * pos.x + vel.z * pos.z) / r
          = -((1/10) * (currentRadius - PLAYER_RADIUS)
            * (vel.x * pos.x + vel.z * pos.z) / r) := by ring
      rw [heq]
      linarith
    · have hosr : vel.x * (pos.x / r) + vel.y * 0 + vel.z * (pos.z / r)
          = (vel.x * pos.x + vel.z * pos.z) / r := by ring
      have hSle : vel.x * pos.x + vel.z * pos.z ≤ 0 := by
        have hos2 := le_of_not_lt hos
        rw [hosr] at hos2
        have h2 := mul_nonpos_of_nonpos_of_nonneg hos2 (le_of_lt hrpos)
        rwa [div_mul_cancel₀ _ hrne] at h2
      have hkey2 : vel.x * (pos.x / r * (currentRadius - PLAYER_RADIUS))
            + vel.z * (pos.z / r * (currentRadius - PLAYER_RADIUS))
          = (currentRadius - PLAYER_RADIUS) * (vel.x * pos.x + vel.z * pos.z) / r := by
        ring
      rw [hkey2]
      apply div_nonpos_of_nonpos_of_nonneg _ (le_of_lt hrpos)
      exact mul_nonpos_of_nonneg_of_nonpos (le_of_lt hMpos) hSle
  · exact ⟨(currentRadius - PLAYER_RADIUS) / r,
      div_nonneg (le_of_lt hMpos) hr0, by ring, by ring⟩

theorem npcBoundary_contained (pos vel delta : Vec3) (st r : ℚ)
    (hr : r * r = pos.x * pos.x + pos.z * pos.z) (hr0 : 0 ≤ r)
    (hcap : r ≤ 11 * (UNIVERSE_RADIUS * (19/20)))
    (hout : UNIVERSE_RADIUS * (19/20) * (UNIVERSE_RADIUS * (19/20))
      < pos.x * pos.x + pos.z * pos.z) :
    ((npcBoundaryStep pos vel delta st r).1.x * (npcBoundaryStep pos vel delta st r).1.x
      + (npcBoundaryStep pos vel delta st r).1.z * (npcBoundaryStep pos vel delta st r).1.z
      ≤ UNIVERSE_RADIUS * (19/20) * (UNIVERSE_RADIUS * (19/20))) ∧
    ((npcBoundaryStep pos vel delta st r).2.1.x * (npcBoundaryStep pos vel delta st r).1.x
      + (npcBoundaryStep pos vel delta st r).2.1.z * (npcBoundaryStep pos vel delta st r).1.z
      ≤ 0) ∧
    (∃ c : ℚ, 0 ≤ c ∧ (npcBoundaryStep pos vel delta st r).1.x = c * pos.x
      ∧ (npcBoundaryStep pos vel delta st r).1.z = c * pos.z) := by
  have hMpos : (0 : ℚ) < UNIVERSE_RADIUS * (19/20) := by norm_num [UNIVERSE_RADIUS]
  have hrr : 0 < r * r :=
    lt_of_le_of_lt (mul_self_nonneg (UNIVERSE_RADIUS * (19/20))) (by rw [hr]; exact hout)
  have hrpos : 0 < r := by
    rcases lt_or_eq_of_le hr0 with h | h
    · exact h
    · exfalso; rw [← h] at hrr; simp at hrr
  have hrne : r ≠ 0 := ne_of_gt hrpos
  have hMr : UNIVERSE_RADIUS * (19/20) < r := by
    nlinarith [hr, hout, hr0, hMpos, mul_self_nonneg (r - UNIVERSE_RADIUS * (19/20))]
  have huw : (pos.x / r) * (pos.x / r) + (pos.z / r) * (pos.z / r) = 1 := by
    field_simp
    linarith [hr]
  have hv : (pos.x * pos.x + pos.z * pos.z) / r = r := by
    field_simp
    linarith [hr]
  have hxr : pos.x / r * r = pos.x := div_mul_cancel₀ _ hrne
  have hzr : pos.z / r * r = pos.z := div_mul_cancel₀ _ hrne
  simp only [npcBoundaryStep, Vec3.sub, Vec3.smul]
  rw [if_pos hout]
  dsimp only
  refine ⟨?_, ?_, ?_⟩
  · have hLHS : (pos.x - (r - UNIVERSE_RADIUS * (19/20)) * (11/10) * (pos.x / r))
          * (pos.x - (r - UNIVERSE_RADIUS * (19/20)) * (11/10) * (pos.x / r))
        + (pos.z - (r - UNIVERSE_RADIUS * (19/20)) * (11/10) * (pos.z / r))
          * (pos.z - (r - UNIVERSE_RADIUS * (19/20)) * (11/10) * (pos.z / r))
        = r * r - (11/5) * (r - UNIVERSE_RADIUS * (19/20)) * r
          + (121/100) * (r - UNIVERSE_RADIUS * (19/20)) * (r - UNIVERSE_RADIUS * (19/20)) := by
      linear_combination (-1 : ℚ) * hr
        + (-(11/5) * (r - UNIVERSE_RADIUS * (19/20))) * hv
        + ((121/100) * (r - UNIVERSE_RADIUS * (19/20)) * (r - UNIVERSE_RADIUS * (19/20))) * huw
    rw [hLHS]
    nlinarith [hMr, hcap, hMpos]
  · split_ifs with hos
    · have hdotz : (vel.x - (vel.x * (pos.x / r) + vel.y * 0 + vel.z * (pos.z / r)) * (pos.x / r))
            * pos.x
          + (vel.z - (vel.x * (pos.x / r) + vel.y * 0 + vel.z * (pos.z / r)) * (pos.z / r))
            * pos.z = 0 := by
        linear_combination
          (-(vel.x * (pos.x / r) + vel.y * 0 + vel.z * (pos.z / r))) * hv
          + (-vel.x) * hxr + (-vel.z) * hzr
      have hdot2 : (vel.x - (vel.x * (pos.x / r) + vel.y * 0 + vel.z * (pos.z / r)) * (pos.x / r))
            * (pos.x - (r - UNIVERSE_RADIUS * (19/20)) * (11/10) * (pos.x / r))
          + (vel.z - (vel.x * (pos.x / r) + vel.y * 0 + vel.z * (pos.z / r)) * (pos.z / r))
            * (pos.z - (r - UNIVERSE_RADIUS * (19/20)) * (11/10) * (pos.z / r))
          = (1 - (r - UNIVERSE_RADIUS * (19/20)) * (11/10) / r)
            * ((vel.x - (vel.x * (pos.x / r) + vel.y * 0 + vel.z * (pos.z / r)) * (pos.x / r))
                * pos.x
              + (vel.z - (vel.x * (pos.x / r) + vel.y * 0 + vel.z * (pos.z / r)) * (pos.z / r))
                * pos.z) := by
        field_simp
        ring
      rw [hdot2, hdotz, mul_zero]
    · have hosr : vel.x * (pos.x / r) + vel.y * 0 + vel.z * (pos.z / r)
          = (vel.x * pos.x + vel.z * pos.z) / r := by ring
      have hSle : vel.x * pos.x + vel.z * pos.z ≤ 0 := by
        have hos2 := le_of_not_lt hos
        rw [hosr] at hos2
        have h2 := mul_nonpos_of_nonpos_of_nonneg hos2 (le_of_lt hrpos)
        rwa [div_mul_cancel₀ _ hrne] at h2
      have hk : vel.x * (pos.x - (r - UNIVERSE_RADIUS * (19/20)) * (11/10) * (pos.x / r))
            + vel.z * (pos.z - (r - UNIVERSE_RADIUS * (19/20)) * (11/10) * (pos.z / r))
          = ((11 * (UNIVERSE_RADIUS * (19/20)) - r) / (10 * r))
            * (vel.x * pos.x + vel.z * pos.z) := by
        field_simp
        ring
      rw [hk]
      apply mul_nonpos_of_nonneg_of_nonpos _ hSle
      apply div_nonneg (by linarith [hcap]) (by linarith [hrpos])
  · refine ⟨(11 * (UNIVERSE_RADIUS * (19/20)) - r) / (10 * r),
      div_nonneg (by linarith [hcap]) (by linarith [hrpos]), ?_, ?_⟩
    · linear_combination (-1 : ℚ) * hxr
    · linear_combination (-1 : ℚ) * hzr

/-- Claim C8 (amended): boundary containment holds per frame with one
qualification.  Player variant: a tentative position outside the allowed
radius (current universe radius minus the player radius) ends the update
exactly on that boundary, radially, with no positive outward component left in
the velocity.  NPC variant: the same containment (on or inside 95% of
UNIVERSE_RADIUS) and outward-velocity removal hold provided the tentative
distance is at most 11 times the clamp radius; beyond that the 1.1-scaled
pushback overshoots past the far side of the disk and can leave the NPC
outside, as the separate counterexample shows. -/
theorem boundaryStep_containment :
    (∀ (currentRadius : ℚ) (pos vel : Vec3) (r : ℚ),
      r * r = pos.x * pos.x + pos.z * pos.z → 0 ≤ r → PLAYER_RADIUS < currentRadius →
      (currentRadius - PLAYER_RADIUS) * (currentRadius - PLAYER_RADIUS)
        < pos.x * pos.x + pos.z * pos.z →
      ((playerBoundaryStep currentRadius pos vel r).1.x
          * (playerBoundaryStep currentRadius pos vel r).1.x
        + (playerBoundaryStep currentRadius pos vel r).1.z
          * (playerBoundaryStep currentRadius pos vel r).1.z
        = (currentRadius - PLAYER_RADIUS) * (currentRadius - PLAYER_RADIUS)) ∧
      ((playerBoundaryStep currentRadius pos vel r).2.x
          * (playerBoundaryStep currentRadius pos vel r).1.x
        + (playerBoundaryStep currentRadius pos vel r).2.z
          * (playerBoundaryStep currentRadius pos vel r).1.z ≤ 0) ∧
      (∃ c : ℚ, 0 ≤ c ∧ (playerBoundaryStep currentRadius pos vel r).1.x = c * pos.x
        ∧ (playerBoundaryStep currentRadius pos vel r).1.z = c * pos.z)) ∧
    (∀ (pos vel delta : Vec3) (st r : ℚ),
      r * r = pos.x * pos.x + pos.z * pos.z → 0 ≤ r →
      r ≤ 11 * (UNIVERSE_RADIUS * (19/20)) →
      UNIVERSE_RADIUS * (19/20) * (UNIVERSE_RADIUS * (19/20))
        < pos.x * pos.x + pos.z * pos.z →
      ((npcBoundaryStep pos vel delta st r).1.x * (npcBoundaryStep pos vel delta st r).1.x
        + (npcBoundaryStep pos vel delta st r).1.z * (npcBoundaryStep pos vel delta st r).1.z
        ≤ UNIVERSE_RADIUS * (19/20) * (UNIVERSE_RADIUS * (19/20))) ∧
      ((npcBoundaryStep pos vel delta st r).2.1.x * (npcBoundaryStep pos vel delta st r).1.x
        + (npcBoundaryStep pos vel delta st r).2.1.z * (npcBoundaryStep pos vel delta st r).1.z
        ≤ 0) ∧
      (∃ c : ℚ, 0 ≤ c ∧ (npcBoundaryStep pos vel delta st r).1.x = c * pos.x
        ∧ (npcBoundaryStep pos vel delta st r).1.z = c * pos.z)) :=
  ⟨fun currentRadius pos vel r hr hr0 hrad hout =>
      playerBoundary_contained currentRadius pos vel r hr hr0 hrad hout,
    fun pos vel delta st r hr hr0 hcap hout =>
      npcBoundary_contained pos vel delta st r hr hr0 hcap hout⟩

/-- Claim C8 counterexample: an NPC whose tentative position is 800 units from
the center (800 is the exact horizontal distance, so the sqrt oracle is exact)
ends the boundary update at distance 43.425, still outside the allowed radius
33.25 — the 1.1-scaled pushback overshoots past the far side of the disk, so
the claimed push back to or inside the boundary fails. -/
theorem boundaryStep_overshoot_counterexample :
    (800 : ℚ) * 800
      = (⟨800, 0, 0⟩ : Vec3).x * (⟨800, 0, 0⟩ : Vec3).x
        + (⟨800, 0, 0⟩ : Vec3).z * (⟨800, 0, 0⟩ : Vec3).z ∧
    UNIVERSE_RADIUS * (19/20) * (UNIVERSE_RADIUS * (19/20))
      < (npcBoundaryStep ⟨800, 0, 0⟩ ⟨0, 0, 0⟩ ⟨0, 0, 0⟩ 0 800).1.x
          * (npcBoundaryStep ⟨800, 0, 0⟩ ⟨0, 0, 0⟩ ⟨0, 0, 0⟩ 0 800).1.x
        + (npcBoundaryStep ⟨800, 0, 0⟩ ⟨0, 0, 0⟩ ⟨0, 0, 0⟩ 0 800).1.z
          * (npcBoundaryStep ⟨800, 0, 0⟩ ⟨0, 0, 0⟩ ⟨0, 0, 0⟩ 0 800).1.z := by
  constructor
  · norm_num
  · norm_num [npcBoundaryStep, UNIVERSE_RADIUS, Vec3.sub, Vec3.smul]

/-- Witness for claim C8 (amended) at concrete frames: a player at horizontal
distance 50 in the hub is clamped exactly onto the allowed circle with no
outward velocity left, and an NPC at distance 60 (within 11 times the clamp
radius) ends inside the 95% boundary. -/
theorem boundaryStep_containment_witness :
    ((playerBoundaryStep MAIN_UNIVERSE_RADIUS ⟨30, 1, 40⟩ ⟨5, 0, 0⟩ 50).1.x
        * (playerBoundaryStep MAIN_UNIVERSE_RADIUS ⟨30, 1, 40⟩ ⟨5, 0, 0⟩ 50).1.x
      + (playerBoundaryStep MAIN_UNIVERSE_RADIUS ⟨30, 1, 40⟩ ⟨5, 0, 0⟩ 50).1.z
        * (playerBoundaryStep MAIN_UNIVERSE_RADIUS ⟨30, 1, 40⟩ ⟨5, 0, 0⟩ 50).1.z
      = (MAIN_UNIVERSE_RADIUS - PLAYER_RADIUS) * (MAIN_UNIVERSE_RADIUS - PLAYER_RADIUS)) ∧
    ((playerBoundaryStep MAIN_UNIVERSE_RADIUS ⟨30, 1, 40⟩ ⟨5, 0, 0⟩ 50).2.x
        * (playerBoundaryStep MAIN_UNIVERSE_RADIUS ⟨30, 1, 40⟩ ⟨5, 0, 0⟩ 50).1.x
      + (playerBoundaryStep MAIN_UNIVERSE_RADIUS ⟨30, 1, 40⟩ ⟨5, 0, 0⟩ 50).2.z
        * (playerBoundaryStep MAIN_UNIVERSE_RADIUS ⟨30, 1, 40⟩ ⟨5, 0, 0⟩ 50).1.z ≤ 0) ∧
    ((npcBoundaryStep ⟨36, 0, 48⟩ ⟨1, 0, 1⟩ ⟨0, 0, 0⟩ 0 60).1.x
        * (npcBoundaryStep ⟨36, 0, 48⟩ ⟨1, 0, 1⟩ ⟨0, 0, 0⟩ 0 60).1.x
      + (npcBoundaryStep ⟨36, 0, 48⟩ ⟨1, 0, 1⟩ ⟨0, 0, 0⟩ 0 60).1.z
        * (npcBoundaryStep ⟨36, 0, 48⟩ ⟨1, 0, 1⟩ ⟨0, 0, 0⟩ 0 60).1.z
      ≤ UNIVERSE_RADIUS * (19/20) * (UNIVERSE_RADIUS * (19/20))) := by
  have hp := boundaryStep_containment.1 MAIN_UNIVERSE_RADIUS ⟨30, 1, 40⟩ ⟨5, 0, 0⟩ 50
    (by norm_num) (by norm_num)
    (by norm_num [PLAYER_RADIUS, MAIN_UNIVERSE_RADIUS])
    (by norm_num [PLAYER_RADIUS, MAIN_UNIVERSE_RADIUS])
  have hn := boundaryStep_containment.2 ⟨36, 0, 48⟩ ⟨1, 0, 1⟩ ⟨0, 0, 0⟩ 0 60
    (by norm_num) (by norm_num) (by norm_num [UNIVERSE_RADIUS])
    (by norm_num [UNIVERSE_RADIUS])
  exact ⟨hp.1, hp.2.1, hn.1⟩

/-- Claim C9: a non-waiting, non-hint NPC agent with positive frame time whose
accumulated stuck timer exceeds the 3-second limit, and whose movement this
step is still below the time-scaled sub-threshold, is assigned a fresh wander
target via setNewNPCTarget on this very update step, with its stuck timer
reset to zero and its waiting flag cleared. -/
theorem npcStuckCheck_retarget
    (behavior : NPCBehavior) (deltaTime : ℚ) (pos : Vec3) (canFly : Bool)
    (universeRadius speed : ℚ) (smp : TargetSamples) (nudgeX nudgeZ : ℚ) (s : StuckState)
    (hw : s.isWaiting = false) (hb : behavior ≠ NPCBehavior.hint) (hdt : 0 < deltaTime)
    (hstuck : STUCK_TIME_LIMIT < s.stuckTimer)
    (hmove : pos.distanceToSquared s.lastPosition
      < STUCK_THRESHOLD_SQ * (deltaTime / (16/1000))) :
    (npcStuckCheck behavior deltaTime pos canFly universeRadius speed smp nudgeX nudgeZ s).2
      = true ∧
    (npcStuckCheck behavior deltaTime pos canFly universeRadius speed smp nudgeX nudgeZ
      s).1.stuckTimer = 0 ∧
    (npcStuckCheck behavior deltaTime pos canFly universeRadius speed smp nudgeX nudgeZ
      s).1.targetPosition = setNewNPCTarget smp pos canFly universeRadius ∧
    (npcStuckCheck behavior deltaTime pos canFly universeRadius speed smp nudgeX nudgeZ
      s).1.isWaiting = false := by
  have h1 : s.isWaiting = false ∧ behavior ≠ NPCBehavior.hint ∧ 0 < deltaTime := ⟨hw, hb, hdt⟩
  have hlimit : STUCK_TIME_LIMIT
      < ({ s with stuckTimer := s.stuckTimer + deltaTime } : StuckState).stuckTimer := by
    dsimp only
    linarith
  simp only [npcStuckCheck]
  rw [if_pos h1, if_pos hmove, if_pos hlimit]
  exact ⟨rfl, rfl, rfl, rfl⟩

/-- Witness for claim C9 at a concrete agent: a wanderer with stuck timer 3.5,
unmoved since the last frame, retargets and zeroes the timer on the next
1/60-second step. -/
theorem npcStuckCheck_retarget_witness :
    (npcStuckCheck NPCBehavior.wanderer (1/60) ⟨0, 0, 0⟩ false 35 1
      ⟨1, 0, 1/2, 2, 1, 0, 1⟩ 0 0 ⟨false, 7/2, ⟨0, 0, 0⟩, ⟨0, 0, 0⟩, 0, 0⟩).2 = true ∧
    (npcStuckCheck NPCBehavior.wanderer (1/60) ⟨0, 0, 0⟩ false 35 1
      ⟨1, 0, 1/2, 2, 1, 0, 1⟩ 0 0 ⟨false, 7/2, ⟨0, 0, 0⟩, ⟨0, 0, 0⟩, 0, 0⟩).1.stuckTimer = 0 ∧
    (npcStuckCheck NPCBehavior.wanderer (1/60) ⟨0, 0, 0⟩ false 35 1
      ⟨1, 0, 1/2, 2, 1, 0, 1⟩ 0 0 ⟨false, 7/2, ⟨0, 0, 0⟩, ⟨0, 0, 0⟩, 0, 0⟩).1.targetPosition
      = setNewNPCTarget ⟨1, 0, 1/2, 2, 1, 0, 1⟩ ⟨0, 0, 0⟩ false 35 ∧
    (npcStuckCheck NPCBehavior.wanderer (1/60) ⟨0, 0, 0⟩ false 35 1
      ⟨1, 0, 1/2, 2, 1, 0, 1⟩ 0 0 ⟨false, 7/2, ⟨0, 0, 0⟩, ⟨0, 0, 0⟩, 0, 0⟩).1.isWaiting
      = false := by
  exact npcStuckCheck_retarget NPCBehavior.wanderer (1/60) ⟨0, 0, 0⟩ false 35 1
    ⟨1, 0, 1/2, 2, 1, 0, 1⟩ 0 0 ⟨false, 7/2, ⟨0, 0, 0⟩, ⟨0, 0, 0⟩, 0, 0⟩
    rfl (by simp) (by norm_num)
    (by norm_num [STUCK_TIME_LIMIT])
    (by norm_num [Vec3.distanceToSquared, Vec3.sub, Vec3.lengthSq, STUCK_THRESHOLD_SQ])

/-- Claim C10: clue collection is idempotent with respect to score: the first
handleClueCollect call for a clue's originalIndex increments clueScore by
exactly one and records the index in collectedClueIndices, and any subsequent
call for a clue carrying the same originalIndex leaves clueScore and
collectedClueIndices unchanged. -/
theorem handleClueCollect_idempotent (st : GameState) (clue clue2 : ClueMesh)
    (hidx : clue2.originalIndex = clue.originalIndex)
    (hnew : st.collectedClueIndices.contains clue.originalIndex = false) :
    ((handleClueCollect st clue).clueScore = st.clueScore + 1) ∧
    (clue.originalIndex ∈ (handleClueCollect st clue).collectedClueIndices) ∧
    ((handleClueCollect (handleClueCollect st clue) clue2).clueScore
      = (handleClueCollect st clue).clueScore) ∧
    ((handleClueCollect (handleClueCollect st clue) clue2).collectedClueIndices
      = (handleClueCollect st clue).collectedClueIndices) := by
  have hnotmem : clue.originalIndex ∉ st.collectedClueIndices := by
    simpa using hnew
  have hfirst : handleClueCollect st clue
      = { clueScore := st.clueScore + 1,
          collectedClueIndices := st.collectedClueIndices ++ [clue.originalIndex],
          worldObjects := st.worldObjects.filter fun objId => objId ≠ clue.id } := by
    simp [handleClueCollect, hnotmem]
  have hcontains : ((handleClueCollect st clue).collectedClueIndices).contains
      clue2.originalIndex = true := by
    rw [hfirst, hidx]
    simp
  have hgen : ∀ A : GameState, A.collectedClueIndices.contains clue2.originalIndex = true →
      (handleClueCollect A clue2).clueScore = A.clueScore ∧
      (handleClueCollect A clue2).collectedClueIndices = A.collectedClueIndices := by
    intro A hA
    unfold handleClueCollect
    rw [if_pos hA]
    exact ⟨rfl, rfl⟩
  exact ⟨by rw [hfirst], by rw [hfirst]; simp,
    (hgen _ hcontains).1, (hgen _ hcontains).2⟩

/-- Witness for claim C10 at a concrete state: collecting clue index 3 raises
the score from 0 to 1 and records it, and a second mesh with the same index
changes neither the score nor the record. -/
theorem handleClueCollect_idempotent_witness :
    ((handleClueCollect ⟨0, [], [5, 7]⟩ ⟨5, 3⟩).clueScore = 0 + 1) ∧
    ((3 : Nat) ∈ (handleClueCollect ⟨0, [], [5, 7]⟩ ⟨5, 3⟩).collectedClueIndices) ∧
    ((handleClueCollect (handleClueCollect ⟨0, [], [5, 7]⟩ ⟨5, 3⟩) ⟨9, 3⟩).clueScore
      = (handleClueCollect ⟨0, [], [5, 7]⟩ ⟨5, 3⟩).clueScore) ∧
    ((handleClueCollect (handleClueCollect ⟨0, [], [5, 7]⟩ ⟨5, 3⟩) ⟨9, 3⟩).collectedClueIndices
      = (handleClueCollect ⟨0, [], [5, 7]⟩ ⟨5, 3⟩).collectedClueIndices) := by
  exact handleClueCollect_idempotent ⟨0, [], [5, 7]⟩ ⟨5, 3⟩ ⟨9, 3⟩ rfl rfl
